import Mathlib

/-!
Verification of the keirin analysis core (`logic_v2.py`): the Rider Scoring
Engine (`calculate_classic_score`, `apply_v3_logic`), the Race Classifier and
Ticket Generator (`generate_betting_strategy`), and the Settlement Engine
(`analyze_prediction_history`).

Modelling conventions:
* Python floats are modelled by `ℚ`; every constant in the source is an exact
  decimal, and no comparison in any claim sits at a rounding boundary.
* A pandas dataframe is a list of row structures.  A missing numeric cell
  (NaN) is an `Option` value; a missing string column is modelled by the empty
  string when the code's behaviour on the empty string coincides with its
  behaviour on an absent column (e.g. `str.contains` bonuses), and by an
  explicit flag otherwise.
* `VELODROME_SPECS` and the sqlite store live in `db_utils`, outside this
  repository; following the spec they are injected inputs here.
* Display-only strings (titles, reasons, payout formatting) are not modelled;
  every string that any claim inspects is modelled exactly.
-/

namespace Keirin

/-- Fuel-driven worker for string splitting (fuel starts above the string
length, so it never runs out); structural recursion keeps every concrete
evaluation kernel-reducible. -/
def splitGo (sep : List Char) : Nat → List Char → List Char → List (List Char)
  | 0, acc, _ => [acc.reverse]
  | _ + 1, acc, [] => [acc.reverse]
  | fuel + 1, acc, c :: rest =>
    if sep.isPrefixOf (c :: rest) then
      acc.reverse :: splitGo sep fuel [] ((c :: rest).drop sep.length)
    else
      splitGo sep fuel (c :: acc) rest

/-- Python `s.split(sep)` for a nonempty separator: non-overlapping
occurrences, scanned left to right. -/
def pySplit (s sep : String) : List String :=
  if sep.data.isEmpty then [s]
  else (splitGo sep.data (s.data.length + 1) [] s.data).map (fun cs => String.mk cs)

/-- Python `s.strip()`. -/
def pyTrim (s : String) : String :=
  String.mk ((s.data.dropWhile Char.isWhitespace).reverse.dropWhile Char.isWhitespace).reverse

/-- Python `s.replace(a, b)` for nonempty `a` (split on `a`, join with `b`). -/
def pyReplace (s a b : String) : String := String.intercalate b (pySplit s a)

/-- Substring test: Python `sub in s` for nonempty `sub`,
via the fact that splitting yields more than one piece iff `sub` occurs. -/
def containsSub (s sub : String) : Bool :=
  (pySplit s sub).length != 1

/-- Velodrome geometry tuple `(straight, cant, length)` from `db_utils.VELODROME_SPECS`. -/
structure BankSpecs where
  straight : ℚ
  cant : ℚ
  length : ℚ
deriving Repr, DecidableEq

/-- The default `(400, 30, 400)` used by `VELODROME_SPECS.get(place, (400, 30, 400))`. -/
def defaultSpecs : BankSpecs := ⟨400, 30, 400⟩

/-- One row of the per-race rider table fed to the scoring engine. -/
structure Rider where
  /-- Column 車番 -/
  car : Nat
  /-- Column 競走得点 cell; `none` models NaN (filled with 80.0). -/
  tokuten : Option ℚ
  /-- Column 地元 == 1 -/
  jimoto : Bool
  /-- Column 脚質 tactic string -/
  kyaku : String
  /-- Column 級班 -/
  kyuhan : String
  /-- B count (`to_numeric(...).fillna(0)` already applied) -/
  bCount : ℚ
  /-- Column 逃 count -/
  nigeCount : ℚ
  /-- Column 捲 count -/
  makuriCount : ℚ
  /-- Column 差 count -/
  sashiCount : ℚ
  /-- precomputed is_top_nige flag (`row.get('is_top_nige', 0) == 1`) -/
  isTopNige : Bool
  /-- precomputed is_top_makuri flag -/
  isTopMakuri : Bool
  /-- precomputed is_top_sashi flag -/
  isTopSashi : Bool
  /-- Column ライン cell for this rider -/
  line : String
deriving Repr, DecidableEq

/-- A race as seen by the scoring engine. -/
structure Race where
  riders : List Rider
  /-- whether the 競輪場 column is present -/
  hasPlaceCol : Bool
  /-- Column 競輪場 of row 0 ("" when absent) -/
  place : String
  /-- injected `VELODROME_SPECS.get(place)` (no default) -/
  specs? : Option BankSpecs
  /-- whether the ライン column is present -/
  hasLineCol : Bool
deriving Repr, DecidableEq

/-- Source `base_score`: `to_numeric(競走得点).fillna(80.0)`. -/
def baseScoreOf (r : Rider) : ℚ := r.tokuten.getD 80

/-- Rule 2 of `calculate_classic_score`: +3.0 local bonus. -/
def jimotoDelta (r : Rider) : ℚ := if r.jimoto then 3 else 0

/-- Rule 3: +2.0 per matching tactic tag among 逃, 捲. -/
def kyakuDelta (r : Rider) : ℚ :=
  (if containsSub r.kyaku "逃" then (2 : ℚ) else 0) +
  (if containsSub r.kyaku "捲" then (2 : ℚ) else 0)

/-- Rule 4: bank-geometry bonuses, applied only when the 競輪場 column is
present and the place is found in `VELODROME_SPECS`. -/
def bankDelta (race : Race) (r : Rider) : ℚ :=
  if race.hasPlaceCol then
    match race.specs? with
    | none => 0
    | some s =>
      (if s.straight < 50 then (if containsSub r.kyaku "逃" then (2 : ℚ) else 0)
       else if s.straight > 58 then
         (if containsSub r.kyaku "捲" || containsSub r.kyaku "差" then (2 : ℚ) else 0)
       else 0) +
      (if s.cant < 30 then (if containsSub r.kyaku "逃" then (2 : ℚ) else 0)
       else if s.cant > 33 then (if containsSub r.kyaku "捲" then (2 : ℚ) else 0)
       else 0)
  else 0

/-- The ライン string of row 0, `none` when the column is absent, the frame is
empty, or the cell prints as "nan". -/
def classicLineStr (race : Race) : Option String :=
  if race.hasLineCol then
    match race.riders with
    | [] => none
    | r :: _ => if r.line = "nan" then none else some r.line

  else none

/-- Digits of a line token, e.g. "135" ↦ [1, 3, 5]. -/
def lineMembers (s : String) : List Nat :=
  s.toList.filterMap fun c => if c.isDigit then some (c.toNat - 48) else none

/-- One parsed line: member car numbers plus the leader's base score. -/
structure LineInfo where
  members : List Nat
  score : ℚ
deriving Repr, DecidableEq

/-- Source `df[df['車番'] == leader].iloc[0]['base_score']`, 0.0 when no row matches. -/
def leaderScoreOf (race : Race) (leader : Nat) : ℚ :=
  match race.riders.find? (fun r => r.car = leader) with
  | some r => baseScoreOf r
  | none => 0

/-- Parse the whitespace-separated line groups, skipping digitless tokens. -/
def mkLineInfos (race : Race) (s : String) : List LineInfo :=
  ((pySplit s " ").filter (fun t => t ≠ "")).filterMap fun t =>
    match lineMembers t with
    | [] => none
    | m :: ms => some { members := m :: ms, score := leaderScoreOf race m }

/-- Descending comparison on `(len, leader score)`; ties keep list order, which
matches Python's stable `sort(key=..., reverse=True)`. -/
def lineKeyGe (a b : LineInfo) : Bool :=
  decide (b.members.length < a.members.length) ||
  (a.members.length == b.members.length && decide (b.score ≤ a.score))

/-- Insert preserving descending `(len, score)` order, stably. -/
def insertLineDesc (x : LineInfo) : List LineInfo → List LineInfo
  | [] => [x]
  | y :: ys => if lineKeyGe x y then x :: y :: ys else y :: insertLineDesc x ys

/-- Stable descending sort of the parsed lines. -/
def sortLinesDesc : List LineInfo → List LineInfo
  | [] => []
  | x :: xs => insertLineDesc x (sortLinesDesc xs)

/-- Rule 5A: third-position bonus per line of length ≥ 3 — +2.0 for the
top-ranked line (loop index 0), +1.0 for other lines — summed over every
application whose mask `車番 == members[2]` matches `car`. -/
def l3Bonus (b : ℚ) (car : Nat) (info : LineInfo) : ℚ :=
  if 3 ≤ info.members.length ∧ info.members.get? 2 = some car then b else 0

/-- Total rule-5A contribution to rider `car`. -/
def l3Sum (sorted : List LineInfo) (car : Nat) : ℚ :=
  match sorted with
  | [] => 0
  | h :: t => l3Bonus 2 car h + (t.map (l3Bonus 1 car)).sum

/-- Venue adjustment of rule 5B. -/
def venueAdj (race : Race) : ℚ :=
  let place := if race.hasPlaceCol then race.place else ""
  if place = "西武園" ∨ place = "立川" ∨ place = "玉野" ∨ place = "豊橋" then 1/2
  else if place = "静岡" ∨ place = "武雄" then -1
  else 0

/-- Rule 5B applied to the unique longest line `u`: contribution to `car`. -/
def uniqueDelta (adj : ℚ) (u : LineInfo) (car : Nat) : ℚ :=
  if 4 ≤ u.members.length then
    (u.members.map (fun m => if m = car then (5/2 + adj : ℚ) else 0)).sum
  else if u.members.length = 3 then
    (u.members.enum.map (fun p =>
      if p.2 = car then (if p.1 ≤ 1 then (3/2 + adj : ℚ) else (1/2 + adj : ℚ)) else 0)).sum
  else 0

/-- Rule 5B including the uniqueness test (`lengths.count(max_len) == 1`) and
the lookup of the first line of maximal length (`lengths.index(max_len)`). -/
def uniquePart (race : Race) (sorted : List LineInfo) (car : Nat) : ℚ :=
  let lengths := sorted.map (fun i => i.members.length)
  let maxLen := lengths.foldr max 0
  if lengths.count maxLen = 1 then
    match sorted.find? (fun i => i.members.length = maxLen) with
    | some u => uniqueDelta (venueAdj race) u car
    | none => 0
  else 0

/-- Rule 5 (line logic) total for rider `car`. -/
def lineDelta (race : Race) (car : Nat) : ℚ :=
  match classicLineStr race with
  | none => 0
  | some s =>
    match sortLinesDesc (mkLineInfos race s) with
    | [] => 0
    | h :: t => l3Sum (h :: t) car + uniquePart race (h :: t) car

/-- Race class as computed in `calculate_classic_score` (A3 checked before S). -/
def classTierClassic (race : Race) : String :=
  if race.riders.any (fun r => containsSub r.kyuhan "A3" || containsSub r.kyuhan "A級3班") then "A3"
  else if race.riders.any (fun r => containsSub r.kyuhan "S") then "S"
  else "A"

/-- Index of the first row attaining the maximal base score (`idxmax`). -/
def firstMaxIdx (l : List ℚ) : Nat :=
  match l with
  | [] => 0
  | x :: xs =>
    (xs.foldl (fun (acc : Nat × ℚ × Nat) v =>
        let (best, bestv, i) := acc
        if bestv < v then (i, v, i + 1) else (best, bestv, i + 1))
      (0, x, 1)).1

/-- Rule 6 lift bonus for the top-base-score rider, via the max-chain. -/
def liftBonusOf (tier : String) (r : Rider) : ℚ :=
  if tier = "A3" then
    let b1 : ℚ := if r.isTopNige then max 0 4 else 0
    if r.isTopMakuri then max b1 4 else b1
  else if tier = "A" then
    let b1 : ℚ := if r.isTopNige then max 0 (5/2) else 0
    if r.isTopMakuri then max b1 2 else b1
  else if tier = "S" then
    let b1 : ℚ := if r.isTopNige then max 0 (3/2) else 0
    if r.isTopSashi then max b1 (1/2) else b1
  else 0

/-- Rule 6 contribution to row `i` (only the single `idxmax` row, only if > 0). -/
def liftDelta (race : Race) (i : Nat) : ℚ :=
  match race.riders with
  | [] => 0
  | _ :: _ =>
    let j := firstMaxIdx (race.riders.map baseScoreOf)
    if i = j then
      match race.riders.get? j with
      | some r =>
        let b := liftBonusOf (classTierClassic race) r
        if 0 < b then b else 0
      | none => 0
    else 0

/-- Source `calculate_classic_score` final `ai_score` of row `i` (the 競走得点 column
is assumed present, per the §6 input contract; its cells may still be NaN). -/
def calculate_classic_score (race : Race) (i : Nat) : ℚ :=
  match race.riders.get? i with
  | none => 0
  | some r =>
    baseScoreOf r + jimotoDelta r + kyakuDelta r + bankDelta race r +
      lineDelta race r.car + liftDelta race i

/-- Descending insertion for a list of rationals (tie order irrelevant:
only the two largest values are read). -/
def insertQDesc (x : ℚ) : List ℚ → List ℚ
  | [] => [x]
  | y :: ys => if y ≤ x then x :: y :: ys else y :: insertQDesc x ys

/-- Source `sort_values(ascending=False).values` for a numeric column. -/
def sortQDesc : List ℚ → List ℚ
  | [] => []
  | x :: xs => insertQDesc x (sortQDesc xs)

/-- The geometry used by `apply_v3_logic` and `generate_betting_strategy`:
`VELODROME_SPECS.get(place_name, (400, 30, 400))` with `place_name` read from
the 競輪場 column when present, else "". -/
def v3Specs (race : Race) : BankSpecs :=
  if race.hasPlaceCol then race.specs?.getD defaultSpecs else defaultSpecs

/-- Source `is_short_bank`: straight < 50. -/
def isShortBank (race : Race) : Bool := decide ((v3Specs race).straight < 50)

/-- Source `is_long_bank`: straight > 58. -/
def isLongBank (race : Race) : Bool := decide (58 < (v3Specs race).straight)

/-- Source `df['B_val'].max()` (the engine returns early on an empty frame). -/
def maxBOf (race : Race) : ℚ := (race.riders.map (fun r => r.bCount)).foldr max 0

/-- Source `is_b_top` mask of `apply_v3_logic`. -/
def isBTop (race : Race) (r : Rider) : Bool :=
  decide (r.bCount = maxBOf race) && decide (0 < maxBOf race)

/-- Source `check_dominance`: top value ≥ 5 and (top ≥ 2nd + 5, or 2nd > 0 and
top/2nd ≥ 3, or 2nd = 0 and top ≥ 5); the mask selects rows at the top value
(top > 0).  `vals[1]` is the second element of the descending sort, so a tie
at the top makes `sec = top`. -/
def domMask (race : Race) (proj : Rider → ℚ) (x : ℚ) : Bool :=
  match sortQDesc (race.riders.map proj) with
  | top :: sec :: _ =>
    (decide (5 ≤ top) &&
      (decide (sec + 5 ≤ top) || (decide (0 < sec) && decide (3 ≤ top / sec)) ||
        (decide (sec = 0) && decide (5 ≤ top)))) &&
      decide (x = top) && decide (0 < top)
  | _ => false

/-- Source `is_dom_nige` mask. -/
def isDomNige (race : Race) (r : Rider) : Bool := domMask race (fun x => x.nigeCount) r.nigeCount

/-- Source `is_dom_makuri` mask. -/
def isDomMakuri (race : Race) (r : Rider) : Bool := domMask race (fun x => x.makuriCount) r.makuriCount

/-- Source `is_dom_sashi` mask. -/
def isDomSashi (race : Race) (r : Rider) : Bool := domMask race (fun x => x.sashiCount) r.sashiCount

/-- Source `nige_count`: riders with 逃 count ≥ 3. -/
def nigeConflictCount (race : Race) : Nat :=
  (race.riders.filter (fun r => decide (3 ≤ r.nigeCount))).length

/-- Source `df['逃_val'].max()`. -/
def maxNigeOf (race : Race) : ℚ := (race.riders.map (fun r => r.nigeCount)).foldr max 0

/-- Source `apply_v3_logic` per-row `score_add`, accumulated exactly as in the loop:
B-Top block, then the dominance if/elif chain, then the nige-conflict block. -/
def apply_v3_logic (race : Race) (r : Rider) : ℚ :=
  let s1 : ℚ :=
    if isBTop race r then
      (if isShortBank race then 3 else if isLongBank race then 1 else 2)
    else 0
  let s2 : ℚ :=
    if isDomMakuri race r then s1 + 6
    else if isDomNige race r then (if isShortBank race then s1 + 5 else s1 + 3)
    else if isDomSashi race r then s1 + 2
    else s1
  if 3 ≤ nigeConflictCount race then
    let s3 : ℚ :=
      if containsSub r.kyaku "差" && ! isDomSashi race r then s2 - 1 else s2
    if isDomNige race r || (decide (r.nigeCount = maxNigeOf race) && decide (5 ≤ r.nigeCount)) then
      s3 + 2
    else s3
  else s2

/-- Source `calculate_ai_score`: classic score followed by the V3 overlay, for row `i`. -/
def calculate_ai_score (race : Race) (i : Nat) : ℚ :=
  calculate_classic_score race i +
    (match race.riders.get? i with
     | none => 0
     | some r => apply_v3_logic race r)

/-! ## Race Classifier and Ticket Generator (`generate_betting_strategy`) -/

/-- One row of the scored prediction frame handed to
`generate_betting_strategy` (main flow: `score_col='final_score'`). -/
structure PredRow where
  car : Nat
  /-- value of the score column, after `safe_float` -/
  score : ℚ
  /-- Source `base_score` column -/
  baseScore : ℚ
  line : String
  kyuhan : String
  isDomMakuri : Bool
  isDomNige : Bool
  isBTop : Bool
deriving Repr, DecidableEq

/-- Classifier input: the frame plus the injected velodrome lookup
(`VELODROME_SPECS.get(place_name, (400, 30, 400))`) and the AI hole-car list. -/
structure StrategyInput where
  rows : List PredRow
  bankSpecs : BankSpecs
  aiMatchCars : List Nat
deriving Repr, DecidableEq

/-- Successful return dict of `generate_betting_strategy`
(display-only fields omitted). -/
structure StrategyResult where
  rtype : String
  tickets : List String
  confidence : String
  recPoints : Nat × Nat
deriving Repr, DecidableEq

/-- Outcome of a call: the explicit insufficient-data dict, a normal result,
or an uncaught Python exception. -/
inductive StrategyOutcome where
  /-- the dict `{"type": "error", "title": "データ不足", ..., "tickets": []}` -/
  | insufficient (tickets : List String)
  | ok (res : StrategyResult)
  | pyError (msg : String)
deriving Repr, DecidableEq

/-- Stable descending insertion by score (`sort_values(score_col, ascending=False)`). -/
def insertRowDesc (x : PredRow) : List PredRow → List PredRow
  | [] => [x]
  | y :: ys => if decide (y.score ≤ x.score) then x :: y :: ys else y :: insertRowDesc x ys

/-- Sort the frame by descending score. -/
def sortRowsDesc : List PredRow → List PredRow
  | [] => []
  | x :: xs => insertRowDesc x (sortRowsDesc xs)

/-- Stable descending insertion by base score. -/
def insertRowBaseDesc (x : PredRow) : List PredRow → List PredRow
  | [] => [x]
  | y :: ys => if decide (y.baseScore ≤ x.baseScore) then x :: y :: ys else y :: insertRowBaseDesc x ys

/-- Source `others.sort_values(by='base_score', ascending=False)`. -/
def sortRowsBaseDesc : List PredRow → List PredRow
  | [] => []
  | x :: xs => insertRowBaseDesc x (sortRowsBaseDesc xs)

/-- Ascending insertion sort on naturals. -/
def insertNatAsc (x : Nat) : List Nat → List Nat
  | [] => [x]
  | y :: ys => if x ≤ y then x :: y :: ys else y :: insertNatAsc x ys

/-- Source `sorted(...)` on naturals. -/
def sortNatAsc : List Nat → List Nat
  | [] => []
  | x :: xs => insertNatAsc x (sortNatAsc xs)

/-- Descending insertion sort on naturals (`lengths.sort(reverse=True)`). -/
def insertNatDesc (x : Nat) : List Nat → List Nat
  | [] => [x]
  | y :: ys => if y ≤ x then x :: y :: ys else y :: insertNatDesc x ys

/-- Descending sort on naturals. -/
def sortNatDesc : List Nat → List Nat
  | [] => []
  | x :: xs => insertNatDesc x (sortNatDesc xs)

/-- Line configuration lengths: unique nonempty ライン strings (excluding "0"),
their character counts, sorted descending. -/
def lineCountsOf (rows : List PredRow) : List Nat :=
  let valid := ((rows.filter (fun r => 0 < r.line.length)).map (fun r => r.line)).eraseDups
  let valid := valid.filter (fun l => l != "0" && l != "" && decide (0 < l.length))
  sortNatDesc (valid.map (fun l => l.length))

/-- Race class as computed in `generate_betting_strategy` (S checked first). -/
def classTierStrategy (rows : List PredRow) : String :=
  if rows.any (fun r => containsSub r.kyuhan "S") then "S"
  else if rows.any (fun r => containsSub r.kyuhan "A3") then "A3"
  else "A"

/-- Decimal digit to character. -/
def digitCharOf (n : Nat) : Char :=
  if n = 0 then '0' else if n = 1 then '1' else if n = 2 then '2' else if n = 3 then '3'
  else if n = 4 then '4' else if n = 5 then '5' else if n = 6 then '6' else if n = 7 then '7'
  else if n = 8 then '8' else '9'

/-- Decimal digits of `n`, most significant first (fuel-driven). -/
def natDigits (fuel n : Nat) : List Char :=
  match fuel with
  | 0 => []
  | f + 1 =>
    if n < 10 then [digitCharOf n]
    else natDigits f (n / 10) ++ [digitCharOf (n % 10)]

/-- Python `str(n)` for a natural number. -/
def natStr (n : Nat) : String := String.mk (natDigits (n + 1) n)

/-- Render an optional car number the way a Python f-string renders it. -/
def optCarStr : Option Nat → String
  | some n => natStr n
  | none => "None"

/-- Source `",".join(map(str, cars))`. -/
def joinCars (cars : List Nat) : String :=
  String.intercalate "," (cars.map natStr)

/-- Python list comprehension `[x for x in cands if int(x) != b for all b in bad]`
where `int(None)` raises `TypeError`. -/
def filterIntNe (cands : List (Option Nat)) (bad : List Nat) : Except String (List Nat) :=
  match cands with
  | [] => .ok []
  | none :: _ => .error "TypeError: int() argument must not be None"
  | some n :: rest =>
    (filterIntNe rest bad).map (fun tail => if n ∈ bad then tail else n :: tail)

/-- First run of digits in a string, as a number (`re.findall` + `nums[0]`). -/
def firstNatOf (s : String) : Option Nat :=
  let ds := (s.toList.dropWhile (fun c => !c.isDigit)).takeWhile Char.isDigit
  if ds.isEmpty then none
  else some (ds.foldl (fun a c => a * 10 + (c.toNat - 48)) 0)

/-- Source `_parse_cars`: split on commas, take the first number of each piece. -/
def parseCars (s : String) : List Nat :=
  (pySplit s ",").filterMap firstNatOf

/-- Source `covered_2t_pairs`: ordered exacta pairs already covered by the generated
2車単 tickets (fold `↔` and `=` cover both directions). -/
def covered2tPairs (tickets : List String) : List (Nat × Nat) :=
  tickets.foldl (fun acc t =>
    if containsSub t "2車単" then
      let body := pyTrim ((pySplit t ":").getLastD "")
      if containsSub body "↔" then
        match pySplit body "↔" with
        | s1 :: s2 :: _ =>
          acc ++ (parseCars s1).flatMap (fun x => (parseCars s2).flatMap (fun y => [(x, y), (y, x)]))
        | _ => acc
      else if containsSub body "→" then
        match pySplit body "→" with
        | s1 :: s2 :: _ =>
          acc ++ (parseCars s1).flatMap (fun x => (parseCars s2).map (fun y => (x, y)))
        | _ => acc
      else if containsSub body "=" then
        match pySplit body "=" with
        | s1 :: s2 :: _ =>
          acc ++ (parseCars s1).flatMap (fun x => (parseCars s2).flatMap (fun y => [(x, y), (y, x)]))
        | _ => acc
      else acc
    else acc) []

/-- Source `base_flow_full`: truthy cars among `[c2, c3, c4]`. -/
def baseFlowFull (c2 c3 : Nat) (c4 : Option Nat) : List Nat :=
  ([some c2, some c3, c4].filterMap id).filter (fun x => x ≠ 0)

/-- Source `base_flow_dedup`: candidates whose pair `(c1, cand)` is not yet covered. -/
def baseFlowDedup (tickets : List String) (c1 c2 c3 : Nat) (c4 : Option Nat) : List Nat :=
  (baseFlowFull c2 c3 c4).filter (fun cand => (c1, cand) ∉ covered2tPairs tickets)

/-- Deduplicated base 2車単 insertion (`rec_tickets.insert(0, ...)`). -/
def addBase2T (tickets : List String) (c1 c2 c3 : Nat) (c4 : Option Nat) : List String :=
  let dedup := baseFlowDedup tickets c1 c2 c3 c4
  if dedup.isEmpty then tickets
  else ("2車単: " ++ natStr c1 ++ " → " ++ joinCars dedup) :: tickets

/-- Star-bet selection on the top-scored rider (race type, confidence,
recommended points for 3連単 / 2車単). -/
def starTypeOf (isHighReturn : Bool) (p1 : PredRow) (straight : ℚ) :
    Option (String × String × Nat × Nat) :=
  if isHighReturn then none
  else if p1.isDomMakuri then some ("star_makuri", "SS", 4, 2)
  else if p1.isDomNige && decide (straight < 50) then some ("star_nige_short", "S", 3, 1)
  else if p1.isBTop && decide (straight < 50) then some ("star_btop_short", "A", 6, 2)
  else none

/-- Evaluation of `suji_mode` (conditions A, B, then the C overrides). -/
def sujiModeOf (isHighReturn : Bool) (tier : String) (lcs : List Nat) (straight gap : ℚ) :
    Option String :=
  if isHighReturn then none
  else
    let condA1 := !lcs.isEmpty && tier == "A3" && decide (4 ≤ lcs.foldr max 0)
    let condA2 := tier == "A" && lcs.length == 2 && decide (straight < 50)
    let m1 : Option String :=
      if (condA1 || condA2) && decide (gap ≤ 10) then some "A" else none
    let m2 : Option String :=
      match m1 with
      | some m => some m
      | none =>
        if (if tier == "S" then decide (gap ≤ 10) else decide (gap ≤ 15)) then some "B"
        else none
    if tier == "S" && decide (4 ≤ lcs.length) then some "C"
    else if decide (20 < gap) && tier == "S" then some "C"
    else m2

/-- The priority-ordered classification chain, yielding the race type and the
optional `confidence_level` / `recommended_points` assignments (`none` models
a branch that leaves the Python local unassigned). -/
def classifyOf (isHighReturn : Bool) (starType : Option (String × String × Nat × Nat))
    (sujiMode : Option String) (w1 w2 w3 : ℚ) :
    String × Option String × Option (Nat × Nat) :=
  if isHighReturn then ("snipe", none, none)
  else
    match starType with
    | some (rt, cf, a, b) => (rt, some cf, some (a, b))
    | none =>
      if sujiMode == some "A" then ("suji_fix", some "極", some (4, 1))
      else if sujiMode == some "B" then ("suji_lead", some "高", some (8, 3))
      else if sujiMode == some "C" then ("line_breaker", some "低", some (16, 6))
      else if w1 < 12 then ("skip", none, none)
      else if 30 ≤ w1 ∧ 10 ≤ w1 - w2 then ("teppan", some "高", some (6, 3))
      else if 25 ≤ w1 ∧ 20 ≤ w2 then ("two_strong", some "高", some (8, 4))
      else if w1 - w3 < 5 then ("chaos", some "低", some (18, 9))
      else ("standard", some "中", some (12, 6))

/-- Favorite's line partner: gap to the strongest same-line other rider and
that rider, `(999, none)` when the favorite is unlined. -/
def partnerInfoOf (rows : List PredRow) (p1 : PredRow) (c1 : Nat) : ℚ × Option PredRow :=
  if p1.line != "" && p1.line != "0" then
    match sortRowsBaseDesc ((rows.filter (fun r => r.line == p1.line)).filter
        (fun r => r.car != c1)) with
    | [] => (999, none)
    | best :: _ => (|p1.baseScore - best.baseScore|, some best)
  else (999, none)

/-- Archetype-specific ticket generation.  Branches that feed a missing
`c4 = None` into `int()` raise `TypeError`, modelled by `Except.error`. -/
def ticketsOf (rtype : String) (c1 c2 c3 : Nat) (c4 c5 : Option Nat) (pt : Nat)
    (targetHoleCars : List Nat) : Except String (List String) :=
  if rtype == "skip" then .ok []
  else if rtype == "star_makuri" then
    .ok ["3連単: " ++ natStr c1 ++ " → " ++ natStr c2 ++ "," ++ natStr c3 ++ " → " ++
           natStr c2 ++ "," ++ natStr c3 ++ "," ++ optCarStr c4,
         "2車単: " ++ natStr c1 ++ " → " ++ natStr c2 ++ "," ++ natStr c3]
  else if rtype == "star_nige_short" then
    (filterIntNe [some c2, some c3, c4] [c1, pt]).map (fun thCands =>
      let thStr := if thCands.isEmpty then "全" else joinCars thCands
      ["3連単: " ++ natStr c1 ++ " → " ++ natStr pt ++ " → " ++ thStr,
       "2車単: " ++ natStr c1 ++ " → " ++ natStr pt ++ " (1点)"])
  else if rtype == "star_btop_short" then
    (filterIntNe [some c2, some c3, c4] [c1, pt]).map (fun thCands =>
      ["3連単: " ++ natStr c1 ++ " ↔ " ++ natStr pt ++ " → " ++ joinCars thCands,
       "2車単: " ++ natStr c1 ++ " ↔ " ++ natStr pt])
  else if rtype == "snipe" then
    let tc := match targetHoleCars with | t :: _ => t | [] => c3
    .ok ["3連単 (フォーメーション): " ++ natStr tc ++ " - " ++ natStr c1 ++ "," ++
           natStr c2 ++ " - " ++ natStr c1 ++ "," ++ natStr c2 ++ "," ++ natStr c3]
  else if rtype == "suji_fix" then
    (filterIntNe [some c2, some c3, c4] [c1, pt]).map (fun others =>
      if others.isEmpty then
        ["3連単: " ++ natStr c1 ++ " → " ++ natStr pt ++ " → 全"]
      else
        ["3連単: " ++ natStr c1 ++ " → " ++ natStr pt ++ " → " ++ joinCars others])
  else if rtype == "suji_lead" then
    let otherHeads := [c2, c3].filter (fun x => x ≠ c1 ∧ x ≠ pt)
    let s2nd := joinCars (pt :: otherHeads)
    .ok ["3連単 (フォーメーション): " ++ natStr c1 ++ " → " ++ s2nd ++ " → " ++ s2nd ++
           "," ++ optCarStr c4]
  else if rtype == "line_breaker" then
    -- `targets` is computed (it can raise on `int(None)`) but the emitted
    -- ticket only uses c1, c2, c3
    (filterIntNe [some c2, some c3, c4] [c1]).map (fun _targets =>
      ["3連単 (Box): " ++ natStr c1 ++ "," ++ natStr c2 ++ "," ++ natStr c3])
  else if rtype == "teppan" then
    let thirdRow := ([some c2, some c3, c4].filterMap id).filter (fun x => x ≠ 0 ∧ x ≠ c2)
    .ok ["3連単 (フォーメーション): " ++ natStr c1 ++ " - " ++ natStr c2 ++ "," ++
           natStr c3 ++ " - " ++ joinCars thirdRow]
  else if rtype == "two_strong" then
    .ok ["3連単 (2軸): " ++ natStr c1 ++ " = " ++ natStr c2 ++ " - " ++ natStr c3 ++
           "," ++ optCarStr c4]
  else if rtype == "chaos" then
    let thirdList := ([some c2, some c3, c4, c5].filterMap id).filter (fun x => x ≠ 0)
    .ok ["3連単 (フォーメーション): " ++ natStr c1 ++ "," ++ natStr c2 ++ " - " ++
           natStr c1 ++ "," ++ natStr c2 ++ "," ++ natStr c3 ++ " - " ++
           joinCars thirdList]
  else
    let thirdRow := ([some c1, some c2, some c3, c4, c5].filterMap id).filter
      (fun x => x ≠ 0 ∧ x ≠ c1 ∧ x ≠ c2)
    .ok ["3連単 (フォーメーション): " ++ natStr c1 ++ " - " ++ natStr c2 ++ "," ++
           natStr c3 ++ " - " ++ joinCars thirdRow]

/-- Final assembly: the base 2車単 insertion followed by the dict
construction, which raises `UnboundLocalError` when the classification branch
never assigned `confidence_level` / `recommended_points`. -/
def assembleOf (classified : String × Option String × Option (Nat × Nat))
    (ticketsE : Except String (List String)) (c1 c2 c3 : Nat) (c4 : Option Nat) :
    StrategyOutcome :=
  match ticketsE with
  | .error e => .pyError e
  | .ok tks =>
    let finalTickets := addBase2T tks c1 c2 c3 c4
    match classified.2.1, classified.2.2 with
    | some cf, some rp =>
      .ok { rtype := classified.1, tickets := finalTickets, confidence := cf, recPoints := rp }
    | _, _ => .pyError "UnboundLocalError: confidence_level"

/-- Source `generate_betting_strategy`.  The branches `snipe` and `skip` never assign
`confidence_level` / `recommended_points`, so the final dict construction
raises `UnboundLocalError` there; ticket branches that feed `c4 = None` into
`int()` raise `TypeError`.  Both are modelled by `pyError`. -/
def generate_betting_strategy (inp : StrategyInput) : StrategyOutcome :=
  match sortRowsDesc inp.rows with
  | p1 :: p2 :: p3 :: rest =>
    let total := (inp.rows.map (fun r => r.score)).sum
    let normalize := decide (0 < total) && decide (50 < p1.score)
    let w1 := if normalize then p1.score / total * 100 else p1.score
    let w2 := if normalize then p2.score / total * 100 else p2.score
    let w3 := if normalize then p3.score / total * 100 else p3.score
    let c1 := p1.car
    let c2 := p2.car
    let c3 := p3.car
    let c4 : Option Nat := (rest.get? 0).map (fun r => r.car)
    let c5 : Option Nat := (rest.get? 1).map (fun r => r.car)
    let targetHoleCars := sortNatAsc inp.aiMatchCars.eraseDups
    let isHighReturn := !targetHoleCars.isEmpty && targetHoleCars.any (fun tc => tc != c1)
    let straight := inp.bankSpecs.straight
    let partnerInfo := partnerInfoOf inp.rows p1 c1
    let pt := match partnerInfo.2 with | some b => b.car | none => c2
    let classified :=
      classifyOf isHighReturn (starTypeOf isHighReturn p1 straight)
        (sujiModeOf isHighReturn (classTierStrategy inp.rows) (lineCountsOf inp.rows)
          straight partnerInfo.1)
        w1 w2 w3
    assembleOf classified (ticketsOf classified.1 c1 c2 c3 c4 c5 pt targetHoleCars)
      c1 c2 c3 c4
  | _ => .insufficient []

/-- Bridge from the scoring engine to the classifier, as `app_polars` wires it:
`final_score` is the V3 `ai_score`, the dominance flags are the columns written
by `apply_v3_logic`, and the bank lookup is shared. -/
def toStrategyInput (race : Race) (aiMatch : List Nat) : StrategyInput :=
  { rows := race.riders.enum.map (fun p =>
      { car := p.2.car, score := calculate_ai_score race p.1,
        baseScore := baseScoreOf p.2, line := p.2.line, kyuhan := p.2.kyuhan,
        isDomMakuri := isDomMakuri race p.2, isDomNige := isDomNige race p.2,
        isBTop := isBTop race p.2 }),
    bankSpecs := v3Specs race,
    aiMatchCars := aiMatch }

/-! ## Settlement Engine (`analyze_prediction_history`) -/

/-- One stored recommendation (`history_data` element). -/
structure HEntry where
  place : String
  date : String
  raceNum : String
  strategyType : String
  timestamp : String
  tickets : List String
deriving Repr, DecidableEq

/-- One row of the `race_result` table (player grain).  Numeric cells are
modelled post-parse: a payout cell is `some q` when present and parseable
(`str(x).replace('円','').replace(',','')` converts), `none` otherwise; the
着順 cell is `some v` when `int(float(...))` succeeds. -/
structure ResultRow where
  raceId : String
  /-- Column 車番, via `astype(str)` -/
  car : String
  /-- parsed numeric content of 着順 -/
  rankCell : Option Int
  /-- Column 級班 -/
  kyuhan : String
  pay2rentan : Option ℚ
  pay2shatan : Option ℚ
  pay3rentan : Option ℚ
  pay2renpuku : Option ℚ
  pay3renpuku : Option ℚ
  payWide1 : Option ℚ
  payWide2 : Option ℚ
  payWide3 : Option ℚ
deriving Repr, DecidableEq

/-- Source `clean_rank`: unparseable or non-positive ranks become 99. -/
def cleanRank : Option Int → Int
  | none => 99
  | some v => if 0 < v then v else 99

/-- Source `f"{p}_{d}_{r_str}R"` with `r_str = str(race_num).replace('R','')`. -/
def entryRid (h : HEntry) : String :=
  h.place ++ "_" ++ h.date ++ "_" ++ (pyReplace h.raceNum "R" "") ++ "R"

/-- Deduplication key `f"{p}_{d}_{r}_{st_type}"`. -/
def dedupKey (h : HEntry) : String := entryRid h ++ "_" ++ h.strategyType

/-- Target race ids (entries with truthy place/date/race number). -/
def targetRids (hist : List HEntry) : List String :=
  hist.filterMap fun h =>
    if h.place ≠ "" ∧ h.date ≠ "" ∧ pyReplace h.raceNum "R" "" ≠ "" then some (entryRid h)
    else none

/-- Python lexicographic (code-point) string comparison, `a <= b`. -/
def charsLe : List Char → List Char → Bool
  | [], _ => true
  | _ :: _, [] => false
  | a :: as, b :: bs => if a = b then charsLe as bs else decide (a < b)

/-- Source `a <= b` on strings as Python compares them. -/
def strLe (a b : String) : Bool := charsLe a.data b.data

/-- Stable descending insertion by timestamp
(`sorted(..., key=timestamp, reverse=True)` keeps original order on ties). -/
def insertHistDesc (x : HEntry) : List HEntry → List HEntry
  | [] => [x]
  | y :: ys => if strLe y.timestamp x.timestamp then x :: y :: ys else y :: insertHistDesc x ys

/-- Sort history by timestamp, newest first. -/
def sortHistByTsDesc : List HEntry → List HEntry
  | [] => []
  | x :: xs => insertHistDesc x (sortHistByTsDesc xs)

/-- Keep the first occurrence of each dedup key. -/
def dedupKeep (seen : List String) : List HEntry → List HEntry
  | [] => []
  | h :: rest =>
    if dedupKey h ∈ seen then dedupKeep seen rest
    else h :: dedupKeep (dedupKey h :: seen) rest

/-- Source `--- Deduplicate (Keep Newest) ---`. -/
def dedupHistory (hist : List HEntry) : List HEntry :=
  dedupKeep [] (sortHistByTsDesc hist)

/-- The value stored in `race_map` for one race. -/
structure RaceInfo where
  top3 : List String
  payouts : List (String × ℚ)
deriving Repr, DecidableEq

/-- Stable ascending insertion by `rank_val` (`grp.sort_values('rank_val')`). -/
def insertRowRankAsc (x : ResultRow) : List ResultRow → List ResultRow
  | [] => [x]
  | y :: ys =>
    if cleanRank x.rankCell ≤ cleanRank y.rankCell then x :: y :: ys
    else y :: insertRowRankAsc x ys

/-- Sort result rows by rank. -/
def sortRowsRankAsc : List ResultRow → List ResultRow
  | [] => []
  | x :: xs => insertRowRankAsc x (sortRowsRankAsc xs)

/-- Dict assignment with overwrite. -/
def insertPay (m : List (String × ℚ)) (k : String) (v : Option ℚ) : List (String × ℚ) :=
  match v with
  | none => m
  | some x => (m.filter (fun p => p.1 ≠ k)) ++ [(k, x)]

/-- Build `payouts` from the group's first row, following `key_map` order
(both DB keys 2連単 and 2車単 land on logic key 2車単, the latter winning). -/
def mkPayouts (r0 : ResultRow) : List (String × ℚ) :=
  let m := insertPay [] "2車単" r0.pay2rentan
  let m := insertPay m "2車単" r0.pay2shatan
  let m := insertPay m "3連単" r0.pay3rentan
  let m := insertPay m "2連複" r0.pay2renpuku
  let m := insertPay m "3連複" r0.pay3renpuku
  let m := insertPay m "ワイド1" r0.payWide1
  let m := insertPay m "ワイド2" r0.payWide2
  insertPay m "ワイド3" r0.payWide3

/-- Source `payouts.get(k, 0)`. -/
def payGet (m : List (String × ℚ)) (k : String) : ℚ :=
  match m.find? (fun p => p.1 = k) with
  | some p => p.2
  | none => 0

/-- The rows of one race, in table order (`groupby('race_id')` group). -/
def raceGroup (db : List ResultRow) (rid : String) : List ResultRow :=
  db.filter (fun r => r.raceId = rid)

/-- Source `race_map` as a lookup: `none` when the race has no rows or is a girls
(L-class) race; otherwise the rank-1..3 cars in finish order plus payouts. -/
def raceInfo? (db : List ResultRow) (rid : String) : Option RaceInfo :=
  match raceGroup db rid with
  | [] => none
  | r0 :: rest =>
    let grp := r0 :: rest
    if grp.any (fun r => containsSub r.kyuhan "L") then none
    else
      let sortedGrp := sortRowsRankAsc grp
      let valid := sortedGrp.filter (fun r => 1 ≤ cleanRank r.rankCell ∧ cleanRank r.rankCell ≤ 3)
      some { top3 := valid.map (fun r => r.car), payouts := mkPayouts r0 }

/-- Source `p_part`: split on commas, trim, drop empties. -/
def pPart (s : String) : List String :=
  ((pySplit s ",").map (fun x => pyTrim x)).filter (fun x => x ≠ "")

/-- Ticket kind detection by substring, in source order. -/
def ticketTypeOf (t : String) : String :=
  if containsSub t "3連単" then "3連単"
  else if containsSub t "2車単" then "2車単"
  else if containsSub t "3連複" then "3連複"
  else if containsSub t "2連複" then "2連複"
  else if containsSub t "ワイド" then "ワイド"
  else "その他"

/-- Split the content after the last colon on the first matching separator
(fold `↔`, directional `→`, equality `=`, plain `-`). -/
def ticketParts (t : String) : List String × Bool :=
  let content := pyTrim ((pySplit t ":").getLastD "")
  if containsSub content "↔" then ((pySplit content "↔").map (fun x => pyTrim x), true)
  else if containsSub content "→" then ((pySplit content "→").map (fun x => pyTrim x), false)
  else if containsSub content "=" then ((pySplit content "=").map (fun x => pyTrim x), false)
  else ((pySplit content "-").map (fun x => pyTrim x), false)

/-- Trifecta expansion: ordered triples, reused numbers excluded, multiplicity kept. -/
def combos3rentan (g1 g2 g3 : List String) : List (List String) :=
  g1.flatMap fun a => (g2.filter (fun b => b ≠ a)).flatMap fun b =>
    (g3.filter (fun c => c ≠ a ∧ c ≠ b)).map (fun c => [a, b, c])

/-- Exacta expansion (directional). -/
def combos2shatan (g1 g2 : List String) : List (List String) :=
  g1.flatMap fun a => (g2.filter (fun b => b ≠ a)).map (fun b => [a, b])

/-- Exacta fold expansion: both directions over distinct cars
(the Python `set` iteration order is immaterial to stake and hit). -/
def foldPairs : List String → List (List String)
  | [] => []
  | a :: rest => rest.flatMap (fun b => [[a, b], [b, a]]) ++ foldPairs rest

/-- Source `sorted([a, b])` on two strings. -/
def strSorted2 (a b : String) : String × String := if strLe a b then (a, b) else (b, a)

/-- Source `sorted([a, b, c])` as a list. -/
def strSorted3 (a b c : String) : List String :=
  let (x, y) := strSorted2 a b
  if strLe c x then [c, x, y]
  else if strLe c y then [x, c, y]
  else [x, y, c]

/-- Trio (3連複) expansion: canonicalized sorted triples, first occurrence kept. -/
def combos3renpuku (g1 g2 g3 : List String) : List (List String) :=
  (g1.flatMap fun a => (g2.filter (fun b => b ≠ a)).flatMap fun b =>
    (g3.filter (fun c => c ≠ a ∧ c ≠ b)).map (fun c => strSorted3 a b c)).eraseDups

/-- Quinella/wide expansion: canonicalized sorted pairs, first occurrence kept. -/
def combos2renpuku (g1 g2 : List String) : List (List String) :=
  (g1.flatMap fun a => (g2.filter (fun b => b ≠ a)).map (fun b =>
    let p := strSorted2 a b
    [p.1, p.2])).eraseDups

/-- The concrete combinations a ticket expands to (empty for unrecognized
shapes, which then use the fallback count). -/
def ticketCombos (t : String) : List (List String) :=
  let pb := ticketParts t
  let parts := pb.1
  let isFold := pb.2
  let tt := ticketTypeOf t
  if tt = "3連単" ∧ parts.length = 3 then
    match parts with
    | [a, b, c] => combos3rentan (pPart a) (pPart b) (pPart c)
    | _ => []
  else if tt = "2車単" ∧ 2 ≤ parts.length then
    match parts with
    | a :: b :: _ =>
      if isFold then foldPairs ((pPart a ++ pPart b).eraseDups)
      else combos2shatan (pPart a) (pPart b)
    | _ => []
  else if tt = "3連複" ∧ parts.length = 3 then
    match parts with
    | [a, b, c] => combos3renpuku (pPart a) (pPart b) (pPart c)
    | _ => []
  else if (tt = "2連複" ∨ tt = "ワイド") ∧ parts.length = 2 then
    match parts with
    | [a, b] => combos2renpuku (pPart a) (pPart b)
    | _ => []
  else []

/-- Source `if points == 0`: the product of comma-group sizes. -/
def fallbackCount (parts : List String) : Nat :=
  (parts.map (fun p => (pySplit p ",").length)).foldl (fun a b => a * b) 1

/-- Charged points of a ticket. -/
def ticketPoints (t : String) : Nat :=
  let n := (ticketCombos t).length
  if n = 0 then fallbackCount (ticketParts t).1 else n

/-- Source `t_invest = points * 100`. -/
def ticketStake (t : String) : Nat := ticketPoints t * 100

/-- Set equality of string lists (Python `set(cm) == tgt`). -/
def listSetEq (cm tgt : List String) : Bool :=
  cm.all (fun x => x ∈ tgt) && tgt.all (fun x => x ∈ cm)

/-- Tuple comparison `p <= q` as Python orders pairs. -/
def pairLe (p q : String × String) : Bool :=
  if p.1 = q.1 then strLe p.2 q.2 else strLe p.1 q.1

/-- Ascending insertion by pair order. -/
def insertPairAsc (x : String × String) : List (String × String) → List (String × String)
  | [] => [x]
  | y :: ys => if pairLe x y then x :: y :: ys else y :: insertPairAsc x ys

/-- Source `win_pairs.sort()`. -/
def sortPairsAsc : List (String × String) → List (String × String)
  | [] => []
  | x :: xs => insertPairAsc x (sortPairsAsc xs)

/-- Source `wide_map` assignment with overwrite (keys modelled by the pair itself,
which is what `str(list(pair))` injectively encodes). -/
def insertWide (m : List ((String × String) × ℚ)) (k : String × String) (v : ℚ) :
    List ((String × String) × ℚ) :=
  (m.filter (fun p => p.1 ≠ k)) ++ [(k, v)]

/-- Source `wide_map.get(key, 0)`. -/
def wideGet (m : List ((String × String) × ℚ)) (k : String × String) : ℚ :=
  match m.find? (fun p => p.1 = k) with
  | some p => p.2
  | none => 0

/-- Outcome of settling one ticket string. -/
structure TicketResult where
  ttype : String
  points : Nat
  pay : ℚ
  hit : Bool
deriving Repr, DecidableEq

/-- Settle one ticket against the finish order and payout table. -/
def settleTicket (t : String) (top3 : List String) (payouts : List (String × ℚ)) :
    TicketResult :=
  let tt := ticketTypeOf t
  let combos := ticketCombos t
  let points := ticketPoints t
  let r1? := (top3.get? 0).filter (fun s => s != "")
  let r2? := (top3.get? 1).filter (fun s => s != "")
  let r3? := (top3.get? 2).filter (fun s => s != "")
  let payHit : ℚ × Bool :=
    if tt = "3連単" then
      match r1?, r2?, r3? with
      | some a, some b, some c =>
        if [a, b, c] ∈ combos then (payGet payouts "3連単", true) else (0, false)
      | _, _, _ => (0, false)
    else if tt = "2車単" then
      match r1?, r2? with
      | some a, some b =>
        if [a, b] ∈ combos then (payGet payouts "2車単", true) else (0, false)
      | _, _ => (0, false)
    else if tt = "3連複" then
      match r1?, r2?, r3? with
      | some a, some b, some c =>
        if combos.any (fun cm => listSetEq cm [a, b, c]) then (payGet payouts "3連複", true)
        else (0, false)
      | _, _, _ => (0, false)
    else if tt = "2連複" then
      match r1?, r2? with
      | some a, some b =>
        if combos.any (fun cm => listSetEq cm [a, b]) then (payGet payouts "2連複", true)
        else (0, false)
      | _, _ => (0, false)
    else if tt = "ワイド" then
      match r1?, r2?, r3? with
      | some a, some b, some c =>
        let wp := sortPairsAsc [strSorted2 a b, strSorted2 a c, strSorted2 b c]
        let m0 : List ((String × String) × ℚ) := []
        let m1 := match wp.get? 0 with
          | some k => insertWide m0 k (payGet payouts "ワイド1")
          | none => m0
        let m2 := match wp.get? 1 with
          | some k => insertWide m1 k (payGet payouts "ワイド2")
          | none => m1
        let m3 := match wp.get? 2 with
          | some k => insertWide m2 k (payGet payouts "ワイド3")
          | none => m2
        let hits := combos.filterMap (fun cm =>
          match cm with
          | [x, y] =>
            let ck := strSorted2 x y
            if ck ∈ wp then
              let hp := wideGet m3 ck
              if 0 < hp then some hp else none
            else none
          | _ => none)
        if hits.isEmpty then (0, false) else (hits.sum, true)
      | _, _, _ => (0, false)
    else (0, false)
  { ttype := tt, points := points, pay := payHit.1, hit := payHit.2 }

/-- One output row of the race-level summary frame. -/
structure RaceRow where
  entry : HEntry
  isHit : Bool
  benefit : ℚ
  investment : ℚ
  balance : ℚ
  hitDetail : String
  status : String
deriving Repr, DecidableEq

/-- One output row of the ticket-level frame. -/
structure TicketRow where
  place : String
  date : String
  ttype : String
  invest : ℚ
  ret : ℚ
  isHit : Bool
deriving Repr, DecidableEq

/-- Result of processing one deduplicated history entry, with its
contribution to the running totals (only settled races contribute). -/
structure EntryOut where
  row : RaceRow
  ticketRows : List TicketRow
  addInvest : ℚ
  addReturn : ℚ
deriving Repr, DecidableEq

/-- Process one history entry against the `race_map` lookup. -/
def settleEntry (info? : String → Option RaceInfo) (h : HEntry) : EntryOut :=
  let rid := entryRid h
  match info? rid with
  | some info =>
    if info.payouts = [] ∨ info.top3.length < 2 then
      { row := { entry := h, isHit := false, benefit := 0, investment := 0, balance := 0,
                 hitDetail := "結果未着", status := "未" },
        ticketRows := [], addInvest := 0, addReturn := 0 }
    else
      let trs := h.tickets.map (fun t => settleTicket t info.top3 info.payouts)
      let raceInvest : ℚ := (trs.map (fun tr => ((tr.points : ℚ) * 100))).sum
      let raceReturn : ℚ :=
        (trs.filterMap (fun tr => if tr.hit ∧ 0 < tr.pay then some tr.pay else none)).sum
      let hitStrs := trs.filterMap
        (fun tr => if tr.hit ∧ 0 < tr.pay then some (tr.ttype ++ "🎯") else none)
      -- `if not top3 or (len(top3) < 3 and len(top3) < 1)` — kept verbatim
      let pendingReset := hitStrs = [] ∧
        (info.top3 = [] ∨ (info.top3.length < 3 ∧ info.top3.length < 1))
      let detail :=
        if hitStrs ≠ [] then String.intercalate " " hitStrs
        else if pendingReset then "結果未着"
        else "不的中"
      { row := { entry := h, isHit := decide (0 < raceReturn),
                 benefit := if pendingReset then 0 else raceReturn,
                 investment := raceInvest,
                 balance := if pendingReset then 0 else raceReturn - raceInvest,
                 hitDetail := detail, status := "" },
        ticketRows := trs.map (fun tr =>
          { place := h.place, date := h.date, ttype := tr.ttype,
            invest := ((tr.points : ℚ) * 100), ret := if tr.hit then tr.pay else 0,
            isHit := tr.hit }),
        addInvest := raceInvest, addReturn := raceReturn }
  | none =>
    { row := { entry := h, isHit := false, benefit := 0, investment := 0, balance := 0,
               hitDetail := "結果未着", status := "" },
      ticketRows := [], addInvest := 0, addReturn := 0 }

/-- Final aggregate statistics dict. -/
structure Stats where
  totalRaces : Nat
  totalInvest : ℚ
  totalReturn : ℚ
  balance : ℚ
  recoveryRate : ℚ
  hitCount : Nat
  hitRate : ℚ
deriving Repr, DecidableEq

/-- The triple returned by `analyze_prediction_history`. -/
structure AnalyzeOut where
  rows : List RaceRow
  stats : Stats
  ticketRows : List TicketRow
deriving Repr, DecidableEq

/-- The rows fetched by the chunked `SELECT ... WHERE race_id IN (...)` reads;
each target id lands in exactly one chunk, so every race arrives contiguously
in table order, modelled as one filter. -/
def analyzeLoaded (hist : List HEntry) (db : List ResultRow) : List ResultRow :=
  db.filter (fun r => r.raceId ∈ targetRids hist)

/-- The per-entry results of the settlement loop over the deduplicated
history. -/
def analyzeOuts (hist : List HEntry) (db : List ResultRow) : List EntryOut :=
  (dedupHistory hist).map (settleEntry (raceInfo? (analyzeLoaded hist db)))

/-- Source `analyze_prediction_history`; `none` models the early empty returns.
The chunked `SELECT ... WHERE race_id IN (...)` queries are pure reads; every
target id lands in exactly one chunk, so the rows of each race arrive
contiguously in table order, modelled as one filter. -/
def analyze_prediction_history (hist : List HEntry) (db : List ResultRow) :
    Option AnalyzeOut :=
  if hist = [] then none
  else if targetRids hist = [] then none
  else
    let outs := analyzeOuts hist db
    let rows := outs.map (fun o => o.row)
    let totalInvest := (outs.map (fun o => o.addInvest)).sum
    let totalReturn := (outs.map (fun o => o.addReturn)).sum
    let hitCount := (rows.filter (fun r => r.isHit)).length
    some
      { rows := rows,
        stats :=
          { totalRaces := rows.length,
            totalInvest := totalInvest,
            totalReturn := totalReturn,
            balance := totalReturn - totalInvest,
            recoveryRate := if 0 < totalInvest then totalReturn / totalInvest * 100 else 0,
            hitCount := hitCount,
            hitRate := if rows.length ≠ 0 then (hitCount : ℚ) / (rows.length : ℚ) * 100
                       else 0 },
        ticketRows := outs.flatMap (fun o => o.ticketRows) }

/-- One settlement run with the external store threaded through explicitly:
the engine only issues `SELECT`s, so the store it hands back is the store it
was given. -/
def analyzeRun (hist : List HEntry) (db : List ResultRow) :
    Option AnalyzeOut × List ResultRow :=
  (analyze_prediction_history hist db, db)

/-! ## Spec-side definitions used by the claim statements -/

/-- The B-top bonus family of `apply_v3_logic`, in isolation. -/
def btopBonusSpec (race : Race) (r : Rider) : ℚ :=
  if isBTop race r then (if isShortBank race then 3 else if isLongBank race then 1 else 2)
  else 0

/-- The dominance-overlay bonus family of `apply_v3_logic`, in isolation. -/
def domBonusSpec (race : Race) (r : Rider) : ℚ :=
  if isDomMakuri race r then 6
  else if isDomNige race r then (if isShortBank race then 5 else 3)
  else if isDomSashi race r then 2
  else 0

/-- The contested-escape adjustment family of `apply_v3_logic`, in isolation. -/
def nigeConflictSpec (race : Race) (r : Rider) : ℚ :=
  if 3 ≤ nigeConflictCount race then
    (if containsSub r.kyaku "差" && ! isDomSashi race r then (-1 : ℚ) else 0) +
    (if isDomNige race r || (decide (r.nigeCount = maxNigeOf race) && decide (5 ≤ r.nigeCount))
      then (2 : ℚ) else 0)
  else 0

/-- Race type of a successful classification, `none` otherwise. -/
def outcomeType : StrategyOutcome → Option String
  | .ok res => some res.rtype
  | _ => none

/-- Number of distinct expanded combinations of a ticket (the quantity the
spec's stake formula refers to). -/
def distinctComboCount (t : String) : Nat := ((ticketCombos t).eraseDups).length

/-- An entry whose race has no usable result: absent from the result map, or
present with no payouts or fewer than two placed cars. -/
def pendingFor (info? : String → Option RaceInfo) (h : HEntry) : Prop :=
  match info? (entryRid h) with
  | none => True
  | some info => info.payouts = [] ∨ info.top3.length < 2

/-! ## Concrete instances used by counterexamples and witnesses -/

/-- A scored classifier row with no line, class, or dominance data. -/
def plainRow (c : Nat) (s : ℚ) : PredRow :=
  { car := c, score := s, baseScore := s, line := "", kyuhan := "",
    isDomMakuri := false, isDomNige := false, isBTop := false }

/-- C1 failing input: three scored riders, AI hole car 2 differing from the
top car 1, which drives the classifier into the `snipe` branch. -/
def c1Input : StrategyInput :=
  { rows := [plainRow 1 10, plainRow 2 9, plainRow 3 8],
    bankSpecs := defaultSpecs, aiMatchCars := [2] }

/-- A rider with only a base rating and a line string. -/
def linedRider (c : Nat) (t : ℚ) (ln : String) : Rider :=
  { car := c, tokuten := some t, jimoto := false, kyaku := "", kyuhan := "",
    bCount := 0, nigeCount := 0, makuriCount := 0, sashiCount := 0,
    isTopNige := false, isTopMakuri := false, isTopSashi := false, line := ln }

/-- C2 counterexample race: five riders at 静岡 (venue adjustment −1.0) with
line composition "123 45", whose unique longest line has length 3. -/
def c2Race : Race :=
  { riders := [linedRider 1 90 "123 45", linedRider 2 85 "123 45", linedRider 3 80 "123 45",
               linedRider 4 75 "123 45", linedRider 5 70 "123 45"],
    hasPlaceCol := true, place := "静岡", specs? := some ⟨56, 31, 400⟩, hasLineCol := true }

/-- C3 example race: seven riders with base scores 95..75 and no residency,
tactic, line, class, or dominance data. -/
def c3Race : Race :=
  { riders := [linedRider 1 95 "", linedRider 2 90 "", linedRider 3 88 "", linedRider 4 85 "",
               linedRider 5 80 "", linedRider 6 78 "", linedRider 7 75 ""],
    hasPlaceCol := false, place := "", specs? := none, hasLineCol := false }

/-- The scored frame that `calculate_ai_score` produces on `c3Race`. -/
def c3InputLit : StrategyInput :=
  { rows := [plainRow 1 95, plainRow 2 90, plainRow 3 88, plainRow 4 85, plainRow 5 80,
             plainRow 6 78, plainRow 7 75],
    bankSpecs := defaultSpecs, aiMatchCars := [] }

/-- A rider carrying only tactic counts. -/
def countRider (c : Nat) (n m : ℚ) : Rider :=
  { car := c, tokuten := some 80, jimoto := false, kyaku := "", kyuhan := "",
    bCount := 0, nigeCount := n, makuriCount := m, sashiCount := 0,
    isTopNige := false, isTopMakuri := false, isTopSashi := false, line := "" }

/-- C6 counterexample race: rider 1 is dominant in both 捲 and 逃. -/
def c6Race : Race :=
  { riders := [countRider 1 5 5, countRider 2 0 0],
    hasPlaceCol := false, place := "", specs? := none, hasLineCol := false }

/-- C7 counterexample race: a contested-escape race (three riders with
escape count ≥ 3) whose top escaper is escape-dominant. -/
def c7Race : Race :=
  { riders := [countRider 1 9 0, countRider 2 3 0, countRider 3 3 0, countRider 4 0 0],
    hasPlaceCol := false, place := "", specs? := none, hasLineCol := false }

/-- One stored result row of a settled race paying 500 on the exacta. -/
def c5Res (c : String) (rk : Int) : ResultRow :=
  { raceId := "松戸_20250101_1R", car := c, rankCell := some rk, kyuhan := "A級",
    pay2rentan := none, pay2shatan := some 500, pay3rentan := some 2000,
    pay2renpuku := none, pay3renpuku := none,
    payWide1 := none, payWide2 := none, payWide3 := none }

/-- C5 result store: full results for race 1R only. -/
def c5Db : List ResultRow := [c5Res "1" 1, c5Res "2" 2, c5Res "3" 3, c5Res "4" 4]

/-- C5 settled recommendation (its exacta hits). -/
def c5H1 : HEntry :=
  { place := "松戸", date := "20250101", raceNum := "1R",
    strategyType := "ai", timestamp := "t1", tickets := ["2車単: 1 → 2"] }

/-- C5 pending recommendation (no results stored for race 2R). -/
def c5H2 : HEntry :=
  { place := "松戸", date := "20250101", raceNum := "2R",
    strategyType := "ai", timestamp := "t2", tickets := ["2車単: 1 → 2"] }

/-- C10 result rows: a complete finish order and payout table whose riders
are girls-keirin (L) class. -/
def c10Res (c : String) (rk : Int) : ResultRow :=
  { raceId := "松戸_20250101_1R", car := c, rankCell := some rk, kyuhan := "L級1班",
    pay2rentan := none, pay2shatan := some 500, pay3rentan := some 2000,
    pay2renpuku := none, pay3renpuku := none,
    payWide1 := none, payWide2 := none, payWide3 := none }

/-- C10 result store. -/
def c10Db : List ResultRow := [c10Res "1" 1, c10Res "2" 2, c10Res "3" 3, c10Res "4" 4]

/-- C10 recommendation for the girls race, with a ticket that would hit. -/
def c10H : HEntry :=
  { place := "松戸", date := "20250101", raceNum := "1R",
    strategyType := "ai", timestamp := "t1", tickets := ["2車単: 1 → 2"] }

/-! ## Helper lemmas -/

theorem splitGo_ne_nil (sep : List Char) (fuel : Nat) (acc s : List Char) :
    splitGo sep fuel acc s ≠ [] := by
  induction fuel generalizing acc s with
  | zero => simp [splitGo]
  | succ f ih =>
    cases s with
    | nil => simp [splitGo]
    | cons c rest =>
      rw [splitGo]
      split
      · simp
      · exact ih _ _

theorem pySplit_ne_nil (s sep : String) : pySplit s sep ≠ [] := by
  unfold pySplit
  split
  · simp
  · simpa using splitGo_ne_nil sep.data (s.data.length + 1) [] s.data

theorem pySplit_length_pos (s sep : String) : 1 ≤ (pySplit s sep).length := by
  have h := pySplit_ne_nil s sep
  cases hs : pySplit s sep with
  | nil => exact absurd hs h
  | cons a l => simp

theorem foldl_mul_one_le (l : List Nat) (a : Nat) (ha : 1 ≤ a) (h : ∀ x ∈ l, 1 ≤ x) :
    1 ≤ l.foldl (fun a b => a * b) a := by
  induction l generalizing a with
  | nil => simpa using ha
  | cons x xs ih =>
    simp only [List.foldl_cons]
    exact ih (a * x) (Nat.one_le_iff_ne_zero.mpr
      (Nat.mul_ne_zero (Nat.one_le_iff_ne_zero.mp ha)
        (Nat.one_le_iff_ne_zero.mp (h x (List.mem_cons_self x xs)))))
      (fun y hy => h y (List.mem_cons_of_mem x hy))

theorem fallbackCount_pos (parts : List String) : 1 ≤ fallbackCount parts := by
  unfold fallbackCount
  apply foldl_mul_one_le _ _ le_rfl
  intro x hx
  obtain ⟨p, _, rfl⟩ := List.mem_map.mp hx
  exact pySplit_length_pos p ","

theorem ticketPoints_pos (t : String) : 1 ≤ ticketPoints t := by
  unfold ticketPoints
  simp only []
  split
  · exact fallbackCount_pos _
  · omega

theorem jimotoDelta_nonneg (r : Rider) : 0 ≤ jimotoDelta r := by
  unfold jimotoDelta; split <;> norm_num

theorem kyakuDelta_nonneg (r : Rider) : 0 ≤ kyakuDelta r := by
  unfold kyakuDelta
  have h1 : (0 : ℚ) ≤ (if containsSub r.kyaku "逃" then (2 : ℚ) else 0) := by split <;> norm_num
  have h2 : (0 : ℚ) ≤ (if containsSub r.kyaku "捲" then (2 : ℚ) else 0) := by split <;> norm_num
  linarith

theorem bankDelta_nonneg (race : Race) (r : Rider) : 0 ≤ bankDelta race r := by
  unfold bankDelta
  split
  · split
    · norm_num
    · apply add_nonneg <;> (split <;> (try split) <;> (try split) <;> norm_num)
  · norm_num

theorem l3Bonus_nonneg (b : ℚ) (hb : 0 ≤ b) (car : Nat) (info : LineInfo) :
    0 ≤ l3Bonus b car info := by
  unfold l3Bonus; split <;> [exact hb; norm_num]

theorem l3Sum_nonneg (sorted : List LineInfo) (car : Nat) : 0 ≤ l3Sum sorted car := by
  unfold l3Sum
  split
  · norm_num
  · apply add_nonneg (l3Bonus_nonneg 2 (by norm_num) _ _)
    apply List.sum_nonneg
    intro x hx
    obtain ⟨i, _, rfl⟩ := List.mem_map.mp hx
    exact l3Bonus_nonneg 1 (by norm_num) _ _

theorem venueAdj_ge (race : Race) : -1 ≤ venueAdj race := by
  simp only [venueAdj]
  split_ifs <;> norm_num

theorem uniqueDelta_nonneg_of_not_pos3 (adj : ℚ) (ha : -1 ≤ adj) (u : LineInfo) (car : Nat)
    (h : ¬ (u.members.length = 3 ∧ u.members.get? 2 = some car)) :
    0 ≤ uniqueDelta adj u car := by
  unfold uniqueDelta
  split
  · apply List.sum_nonneg
    intro x hx
    obtain ⟨m, _, rfl⟩ := List.mem_map.mp hx
    split <;> linarith
  · split
    · next h3 _ =>
      rename_i hlen
      obtain ⟨a, b, c, hm⟩ := List.length_eq_three.mp hlen
      have hc : ¬ c = car := by
        intro hcc
        exact h ⟨hlen, by rw [hm, hcc]; rfl⟩
      rw [hm]
      have he : ([a, b, c] : List Nat).enum = [(0, a), (1, b), (2, c)] := rfl
      rw [he]
      simp only [List.map_cons, List.map_nil, List.sum_cons, List.sum_nil, add_zero]
      have t0 : (0 : ℚ) ≤ (if a = car then (if (0 : Nat) ≤ 1 then (3/2 + adj : ℚ)
          else (1/2 + adj : ℚ)) else 0) := by
        split
        · simp only [Nat.zero_le 1, if_pos]; linarith
        · norm_num
      have t1 : (0 : ℚ) ≤ (if b = car then (if (1 : Nat) ≤ 1 then (3/2 + adj : ℚ)
          else (1/2 + adj : ℚ)) else 0) := by
        split
        · simp only [le_refl, if_pos]; linarith
        · norm_num
      have t2 : (0 : ℚ) ≤ (if c = car then (if (2 : Nat) ≤ 1 then (3/2 + adj : ℚ)
          else (1/2 + adj : ℚ)) else 0) := by
        rw [if_neg hc]
      linarith
    · norm_num

theorem uniqueDelta_ge_neg_half (adj : ℚ) (ha : -1 ≤ adj) (u : LineInfo) (car : Nat) :
    -(1/2) ≤ uniqueDelta adj u car := by
  by_cases h : u.members.length = 3 ∧ u.members.get? 2 = some car
  · obtain ⟨hlen, hcar⟩ := h
    unfold uniqueDelta
    rw [if_neg (by omega), if_pos hlen]
    obtain ⟨a, b, c, hm⟩ := List.length_eq_three.mp hlen
    rw [hm]
    have he : ([a, b, c] : List Nat).enum = [(0, a), (1, b), (2, c)] := rfl
    rw [he]
    simp only [List.map_cons, List.map_nil, List.sum_cons, List.sum_nil, add_zero]
    have t0 : (0 : ℚ) ≤ (if a = car then (if (0 : Nat) ≤ 1 then (3/2 + adj : ℚ)
        else (1/2 + adj : ℚ)) else 0) := by
      split
      · simp only [Nat.zero_le 1, if_pos]; linarith
      · norm_num
    have t1 : (0 : ℚ) ≤ (if b = car then (if (1 : Nat) ≤ 1 then (3/2 + adj : ℚ)
        else (1/2 + adj : ℚ)) else 0) := by
      split
      · simp only [le_refl, if_pos]; linarith
      · norm_num
    have t2 : -(1/2 : ℚ) ≤ (if c = car then (if (2 : Nat) ≤ 1 then (3/2 + adj : ℚ)
        else (1/2 + adj : ℚ)) else 0) := by
      split
      · norm_num; linarith
      · norm_num
    linarith
  · linarith [uniqueDelta_nonneg_of_not_pos3 adj ha u car h]

theorem l3Sum_ge_one (sorted : List LineInfo) (car : Nat) (u : LineInfo) (hu : u ∈ sorted)
    (hlen : 3 ≤ u.members.length) (hcar : u.members.get? 2 = some car) :
    1 ≤ l3Sum sorted car := by
  cases sorted with
  | nil => cases hu
  | cons h t =>
    simp only [l3Sum]
    rcases List.mem_cons.mp hu with rfl | hmem
    · have hh : l3Bonus 2 car u = 2 := by unfold l3Bonus; rw [if_pos ⟨hlen, hcar⟩]
      have ht : 0 ≤ (t.map (l3Bonus 1 car)).sum := by
        apply List.sum_nonneg
        intro x hx
        obtain ⟨i, _, rfl⟩ := List.mem_map.mp hx
        exact l3Bonus_nonneg 1 (by norm_num) _ _
      rw [hh]; linarith
    · have hh : 0 ≤ l3Bonus 2 car h := l3Bonus_nonneg 2 (by norm_num) _ _
      have hui : l3Bonus 1 car u = 1 := by unfold l3Bonus; rw [if_pos ⟨hlen, hcar⟩]
      have hmono : ∀ x ∈ t.map (l3Bonus 1 car), (0 : ℚ) ≤ x := by
        intro x hx
        obtain ⟨i, _, rfl⟩ := List.mem_map.mp hx
        exact l3Bonus_nonneg 1 (by norm_num) _ _
      have ht := List.single_le_sum hmono (l3Bonus 1 car u) (List.mem_map_of_mem _ hmem)
      rw [hui] at ht
      linarith

theorem uniquePart_case (race : Race) (sorted : List LineInfo) (car : Nat) :
    0 ≤ uniquePart race sorted car ∨
    (∃ u ∈ sorted, 3 ≤ u.members.length ∧ u.members.get? 2 = some car ∧
      -(1/2) ≤ uniquePart race sorted car) := by
  unfold uniquePart
  simp only []
  split
  · split
    · next u hfind =>
      by_cases h3 : u.members.length = 3 ∧ u.members.get? 2 = some car
      · right
        refine ⟨u, List.mem_of_find?_eq_some hfind, by omega, h3.2, ?_⟩
        exact uniqueDelta_ge_neg_half _ (venueAdj_ge race) u car
      · left
        exact uniqueDelta_nonneg_of_not_pos3 _ (venueAdj_ge race) u car h3
    · left; norm_num
  · left; norm_num

theorem lineDelta_nonneg (race : Race) (car : Nat) : 0 ≤ lineDelta race car := by
  unfold lineDelta
  split
  · norm_num
  · split
    · norm_num
    · next h t _ =>
      rcases uniquePart_case race (h :: t) car with hp | ⟨u, hu, hlen, hcar, hge⟩
      · have := l3Sum_nonneg (h :: t) car
        linarith
      · have := l3Sum_ge_one (h :: t) car u hu hlen hcar
        linarith

theorem liftDelta_nonneg (race : Race) (i : Nat) : 0 ≤ liftDelta race i := by
  simp only [liftDelta]
  split
  · norm_num
  · split
    · split
      · split <;> [linarith; norm_num]
      · norm_num
    · norm_num

set_option maxHeartbeats 1000000 in
theorem apply_v3_logic_ge_neg_one (race : Race) (r : Rider) :
    -1 ≤ apply_v3_logic race r := by
  simp only [apply_v3_logic]
  split_ifs <;> norm_num

set_option maxHeartbeats 1000000 in
theorem apply_v3_decomp (race : Race) (r : Rider) :
    apply_v3_logic race r =
      btopBonusSpec race r + domBonusSpec race r + nigeConflictSpec race r := by
  simp only [apply_v3_logic, btopBonusSpec, domBonusSpec, nigeConflictSpec]
  split_ifs <;> ring

/-! ## Claim theorems -/

/-- C2 (amended): for every race and every rider row, the final score after
`calculate_classic_score` followed by `apply_v3_logic` is at least the
rider's base rating minus 1.0.  (The original claim's second half fails: see
the counterexample — the 静岡/武雄 venue adjustment can make the unique
longest line's position-3 bonus negative.) -/
theorem C2_final_score_ge_base_minus_one (race : Race) (i : Nat) (r : Rider)
    (h : race.riders.get? i = some r) :
    baseScoreOf r - 1 ≤ calculate_ai_score race i := by
  unfold calculate_ai_score calculate_classic_score
  simp only [h]
  have h1 := jimotoDelta_nonneg r
  have h2 := kyakuDelta_nonneg r
  have h3 := bankDelta_nonneg race r
  have h4 := lineDelta_nonneg race r.car
  have h5 := liftDelta_nonneg race i
  have h6 := apply_v3_logic_ge_neg_one race r
  linarith

/-- Witness for C2 at a concrete race and rider. -/
theorem C2_witness :
    baseScoreOf (linedRider 1 90 "123 45") - 1 ≤ calculate_ai_score c2Race 0 :=
  C2_final_score_ge_base_minus_one c2Race 0 (linedRider 1 90 "123 45") rfl

/-- C2 counterexample: at 静岡 the −1.0 venue adjustment turns the unique
longest 3-line's position-3 bonus into −0.5, a reduction by a rule other than
the contested-escape penalty (whose adjustment is 0 for this rider). -/
theorem C2_counterexample :
    uniquePart c2Race (sortLinesDesc (mkLineInfos c2Race "123 45")) 3 = -(1/2) ∧
    nigeConflictSpec c2Race (linedRider 3 80 "123 45") = 0 ∧
    calculate_ai_score c2Race 2 = 80 + 3/2 := by
  refine ⟨?_, ?_, ?_⟩ <;> with_unfolding_all decide

/-- C4 (amended): the stake equals the expansion count × 100 whenever the
expansion is nonempty, and is always a positive multiple of 100 (the
group-size-product fallback guarantees positivity). -/
theorem C4_stake_positive_multiple (t : String) :
    (0 < (ticketCombos t).length → ticketStake t = (ticketCombos t).length * 100) ∧
    ∃ k, 1 ≤ k ∧ ticketStake t = 100 * k := by
  constructor
  · intro h
    unfold ticketStake ticketPoints
    simp only []
    rw [if_neg (by omega)]
  · exact ⟨ticketPoints t, ticketPoints_pos t, Nat.mul_comm _ _⟩

/-- Witness for C4 at the spec's example ticket (4 combinations, stake 400). -/
theorem C4_witness :
    ticketStake "3連単: 2 → 5,9 → 5,9,4" =
      (ticketCombos "3連単: 2 → 5,9 → 5,9,4").length * 100 :=
  (C4_stake_positive_multiple "3連単: 2 → 5,9 → 5,9,4").1 (by decide)

/-- C4 counterexample: a trifecta reusing one car in two positions expands to
zero distinct combinations, yet the fallback charges 100, not 0 × 100. -/
theorem C4_counterexample :
    ticketStake "3連単: 1 → 1 → 2" = 100 ∧
    distinctComboCount "3連単: 1 → 1 → 2" = 0 ∧
    (100 : Nat) ≠ 0 * 100 := by decide

/-- C6 (amended): the three rule families of `apply_v3_logic` (B-top bonus,
dominance overlay, contested-escape adjustment) are additive and stack on one
rider, but the dominance-overlay bonuses themselves are mutually exclusive:
a 捲-dominant rider receives exactly +6.0 from the overlay, never the 逃 or
差 dominance bonuses on top of it. -/
theorem C6_families_stack_dominance_exclusive (race : Race) (r : Rider) :
    apply_v3_logic race r =
      btopBonusSpec race r + domBonusSpec race r + nigeConflictSpec race r ∧
    (isDomMakuri race r = true → domBonusSpec race r = 6) := by
  refine ⟨apply_v3_decomp race r, fun h => ?_⟩
  unfold domBonusSpec
  rw [if_pos h]

/-- Witness for C6 at a rider dominant in both 捲 and 逃. -/
theorem C6_witness : domBonusSpec c6Race (countRider 1 5 5) = 6 :=
  (C6_families_stack_dominance_exclusive c6Race (countRider 1 5 5)).2
    (by with_unfolding_all decide)

/-- C6 counterexample: rider 1 qualifies for both the 捲 (+6.0) and 逃 (+3.0
on a non-short default bank) dominance bonuses, yet the overlay adds exactly
6.0, not 6.0 + 3.0 — the bonuses do not stack within rule 7. -/
theorem C6_counterexample :
    isDomMakuri c6Race (countRider 1 5 5) = true ∧
    isDomNige c6Race (countRider 1 5 5) = true ∧
    apply_v3_logic c6Race (countRider 1 5 5) = 6 ∧
    (6 : ℚ) ≠ 6 + 3 := by
  refine ⟨?_, ?_, ?_, ?_⟩ <;> with_unfolding_all decide

/-- C7 (amended): in a contested-escape race the −1.0 penalty hits 差-tagged
riders that are not 差-dominant, and the +2.0 boost applies to every
escape-dominant rider — even though such a rider already received the rule-7
dominance bonus (`is_dom_nige` is one of the boost's disjuncts). -/
theorem C7_boost_applies_to_dominant (race : Race) (r : Rider)
    (h1 : 3 ≤ nigeConflictCount race) (h2 : isDomNige race r = true) :
    apply_v3_logic race r =
      btopBonusSpec race r + domBonusSpec race r +
      (if containsSub r.kyaku "差" && ! isDomSashi race r then (-1 : ℚ) else 0) + 2 := by
  rw [apply_v3_decomp race r]
  unfold nigeConflictSpec
  rw [if_pos h1]
  have hb : (isDomNige race r ||
      (decide (r.nigeCount = maxNigeOf race) && decide (5 ≤ r.nigeCount))) = true := by
    simp [h2]
  rw [if_pos hb]
  ring

/-- Witness for C7 at the concrete contested-escape race. -/
theorem C7_witness :
    apply_v3_logic c7Race (countRider 1 9 0) =
      btopBonusSpec c7Race (countRider 1 9 0) + domBonusSpec c7Race (countRider 1 9 0) +
      (if containsSub (countRider 1 9 0).kyaku "差" && ! isDomSashi c7Race (countRider 1 9 0)
        then (-1 : ℚ) else 0) + 2 :=
  C7_boost_applies_to_dominant c7Race (countRider 1 9 0)
    (by with_unfolding_all decide) (by with_unfolding_all decide)

/-- C7 counterexample: rider 1 is escape-dominant (so already boosted +3.0 by
rule 7) and still receives the contested-escape +2.0, totalling 5.0; the
claim predicts the +2.0 is withheld, i.e. 3.0. -/
theorem C7_counterexample :
    3 ≤ nigeConflictCount c7Race ∧
    isDomNige c7Race (countRider 1 9 0) = true ∧
    apply_v3_logic c7Race (countRider 1 9 0) = 5 ∧
    (5 : ℚ) ≠ 3 := by
  refine ⟨?_, ?_, ?_, ?_⟩ <;> with_unfolding_all decide

/-- C8: the Settlement Engine only reads the store (`SELECT`s), so the store
it hands back is the one it was given, and a second run over that store
reproduces the first run's outputs — per-race rows, ticket rows, and
aggregate statistics — exactly. -/
theorem C8_settlement_idempotent (hist : List HEntry) (db : List ResultRow) :
    (analyzeRun hist db).2 = db ∧
    analyzeRun hist (analyzeRun hist db).2 = analyzeRun hist db :=
  ⟨rfl, rfl⟩

/-- C9: every candidate admitted into the base exacta flow has its ordered
pair `(c1, x)` uncovered by the previously generated 2車単 (exacta / fold)
tickets, so the inserted base ticket stakes no ordered pair twice. -/
theorem C9_base_exacta_excludes_covered (tickets : List String) (c1 c2 c3 : Nat)
    (c4 : Option Nat) (x : Nat) (hx : x ∈ baseFlowDedup tickets c1 c2 c3 c4) :
    (c1, x) ∉ covered2tPairs tickets := by
  unfold baseFlowDedup at hx
  have := List.of_mem_filter hx
  simpa using this

/-- Witness for C9: car 4 survives deduplication against an exacta already
covering (1,2) and (1,3), and its pair is indeed uncovered. -/
theorem C9_witness : (1, 4) ∉ covered2tPairs ["2車単: 1 → 2,3"] :=
  C9_base_exacta_excludes_covered ["2車単: 1 → 2,3"] 1 2 3 (some 4) 4 (by decide)

theorem insertHistDesc_ne_nil (x : HEntry) (l : List HEntry) : insertHistDesc x l ≠ [] := by
  cases l with
  | nil => simp [insertHistDesc]
  | cons y ys => unfold insertHistDesc; split <;> simp

theorem sortHistByTsDesc_ne_nil (l : List HEntry) (h : l ≠ []) : sortHistByTsDesc l ≠ [] := by
  cases l with
  | nil => exact absurd rfl h
  | cons x xs => exact insertHistDesc_ne_nil x (sortHistByTsDesc xs)

theorem dedupHistory_ne_nil (hist : List HEntry) (h : hist ≠ []) : dedupHistory hist ≠ [] := by
  unfold dedupHistory
  have hs := sortHistByTsDesc_ne_nil hist h
  cases hsort : sortHistByTsDesc hist with
  | nil => exact absurd hsort hs
  | cons y ys => unfold dedupKeep; simp

theorem settleEntry_totals (info? : String → Option RaceInfo) (h : HEntry) :
    (settleEntry info? h).row.investment = (settleEntry info? h).addInvest ∧
    (settleEntry info? h).row.benefit = (settleEntry info? h).addReturn := by
  unfold settleEntry
  simp only []
  cases hi : info? (entryRid h) with
  | none => exact ⟨rfl, rfl⟩
  | some info =>
    simp only []
    split
    · exact ⟨rfl, rfl⟩
    · next hcond =>
      push_neg at hcond
      refine ⟨rfl, ?_⟩
      simp only []
      rw [if_neg]
      rintro ⟨-, he | ⟨-, h1⟩⟩
      · rw [he] at hcond; simp at hcond
      · omega

theorem settleEntry_none_row (info? : String → Option RaceInfo) (h : HEntry)
    (hi : info? (entryRid h) = none) :
    (settleEntry info? h).row =
      { entry := h, isHit := false, benefit := 0, investment := 0, balance := 0,
        hitDetail := "結果未着", status := "" } := by
  unfold settleEntry
  simp only []
  rw [hi]

theorem settleEntry_pending_row (info? : String → Option RaceInfo) (h : HEntry)
    (hp : pendingFor info? h) :
    (settleEntry info? h).row.investment = 0 ∧ (settleEntry info? h).row.benefit = 0 ∧
    (settleEntry info? h).row.isHit = false := by
  unfold pendingFor at hp
  unfold settleEntry
  simp only []
  cases hi : info? (entryRid h) with
  | none => exact ⟨rfl, rfl, rfl⟩
  | some info =>
    rw [hi] at hp
    simp only []
    rw [if_pos hp]
    exact ⟨rfl, rfl, rfl⟩

theorem analyze_eq (hist : List HEntry) (db : List ResultRow) (out : AnalyzeOut)
    (hsome : analyze_prediction_history hist db = some out) :
    hist ≠ [] ∧
    out.rows = (analyzeOuts hist db).map (fun o => o.row) ∧
    out.stats.totalInvest = ((analyzeOuts hist db).map (fun o => o.addInvest)).sum ∧
    out.stats.totalReturn = ((analyzeOuts hist db).map (fun o => o.addReturn)).sum ∧
    out.stats.hitRate = (if out.rows.length ≠ 0 then
      ((out.rows.filter (fun r => r.isHit)).length : ℚ) / (out.rows.length : ℚ) * 100
      else 0) := by
  unfold analyze_prediction_history at hsome
  split_ifs at hsome with h1 h2
  simp only [] at hsome
  rw [Option.some_inj] at hsome
  subst hsome
  exact ⟨h1, rfl, rfl, rfl, rfl⟩

theorem raceGroup_loaded_of_mem (db : List ResultRow) (targets : List String) (rid : String)
    (h : rid ∈ targets) :
    raceGroup (db.filter (fun r => r.raceId ∈ targets)) rid = raceGroup db rid := by
  induction db with
  | nil => rfl
  | cons r rest ih =>
    unfold raceGroup at ih ⊢
    by_cases hr : r.raceId = rid
    · rw [List.filter_cons, if_pos (by simp [hr, h]), List.filter_cons, List.filter_cons,
        if_pos (by simp [hr]), if_pos (by simp [hr])]
      exact congrArg _ ih
    · rw [List.filter_cons]
      split
      · rw [List.filter_cons, if_neg (by simp [hr]), List.filter_cons, if_neg (by simp [hr])]
        exact ih
      · rw [List.filter_cons, if_neg (by simp [hr])]
        exact ih

theorem raceGroup_loaded_of_not_mem (db : List ResultRow) (targets : List String) (rid : String)
    (h : rid ∉ targets) :
    raceGroup (db.filter (fun r => r.raceId ∈ targets)) rid = [] := by
  induction db with
  | nil => rfl
  | cons r rest ih =>
    unfold raceGroup at ih ⊢
    rw [List.filter_cons]
    split
    · next hmem =>
      rw [List.filter_cons]
      rw [if_neg]
      · exact ih
      · simp only [decide_eq_true_eq]
        intro hr
        rw [hr] at hmem
        simp only [decide_eq_true_eq] at hmem
        exact h hmem
    · exact ih

theorem raceInfo?_girls_none (db : List ResultRow) (rid : String)
    (hL : (raceGroup db rid).any (fun r => containsSub r.kyuhan "L") = true) :
    raceInfo? db rid = none := by
  unfold raceInfo?
  split
  · rfl
  · next r0 rest heq =>
    rw [heq] at hL
    simp only []
    rw [if_pos hL]

theorem raceInfo?_nil_none (db : List ResultRow) (rid : String)
    (hg : raceGroup db rid = []) :
    raceInfo? db rid = none := by
  unfold raceInfo?
  split
  · rfl
  · next r0 rest heq =>
    rw [hg] at heq
    cases heq

/-- C5 (amended): the aggregate totals feeding the recovery rate collect
exactly the per-row investment and benefit, and every pending entry (no
result, or a result with no payouts or fewer than two placed cars)
contributes zero investment, zero return, and no hit — so the recovery rate
is effectively computed over settled races only; the hit rate's denominator,
however, is the count of ALL deduplicated records, pending included. -/
theorem C5_rate_denominators (hist : List HEntry) (db : List ResultRow) (out : AnalyzeOut)
    (hsome : analyze_prediction_history hist db = some out) :
    out.stats.totalInvest = (out.rows.map (fun r => r.investment)).sum ∧
    out.stats.totalReturn = (out.rows.map (fun r => r.benefit)).sum ∧
    out.stats.hitRate =
      ((out.rows.filter (fun r => r.isHit)).length : ℚ) / (out.rows.length : ℚ) * 100 ∧
    (∀ h ∈ dedupHistory hist, pendingFor (raceInfo? (analyzeLoaded hist db)) h →
      (settleEntry (raceInfo? (analyzeLoaded hist db)) h).row.investment = 0 ∧
      (settleEntry (raceInfo? (analyzeLoaded hist db)) h).row.benefit = 0 ∧
      (settleEntry (raceInfo? (analyzeLoaded hist db)) h).row.isHit = false) := by
  obtain ⟨hne, hrows, hinv, hret, hrate⟩ := analyze_eq hist db out hsome
  have hlen : out.rows.length ≠ 0 := by
    rw [hrows]
    simp only [List.length_map, analyzeOuts]
    simpa using dedupHistory_ne_nil hist hne
  refine ⟨?_, ?_, ?_, ?_⟩
  · rw [hinv, hrows, analyzeOuts]
    simp only [List.map_map]
    refine congrArg List.sum (List.map_congr_left fun h _ => ?_)
    exact ((settleEntry_totals _ h).1).symm
  · rw [hret, hrows, analyzeOuts]
    simp only [List.map_map]
    refine congrArg List.sum (List.map_congr_left fun h _ => ?_)
    exact ((settleEntry_totals _ h).2).symm
  · rw [hrate, if_pos hlen]
  · intro h _ hp
    exact settleEntry_pending_row _ h hp

/-- Witness for C5 at a two-entry history (one settled hit, one pending). -/
theorem C5_witness :
    ∃ out, analyze_prediction_history [c5H1, c5H2] c5Db = some out ∧
      (out.stats.totalInvest = (out.rows.map (fun r => r.investment)).sum ∧
       out.stats.totalReturn = (out.rows.map (fun r => r.benefit)).sum ∧
       out.stats.hitRate =
         ((out.rows.filter (fun r => r.isHit)).length : ℚ) / (out.rows.length : ℚ) * 100 ∧
       (∀ h ∈ dedupHistory [c5H1, c5H2],
          pendingFor (raceInfo? (analyzeLoaded [c5H1, c5H2] c5Db)) h →
          (settleEntry (raceInfo? (analyzeLoaded [c5H1, c5H2] c5Db)) h).row.investment = 0 ∧
          (settleEntry (raceInfo? (analyzeLoaded [c5H1, c5H2] c5Db)) h).row.benefit = 0 ∧
          (settleEntry (raceInfo? (analyzeLoaded [c5H1, c5H2] c5Db)) h).row.isHit = false)) :=
  ⟨_, rfl, C5_rate_denominators [c5H1, c5H2] c5Db _ rfl⟩

/-- C5 counterexample: one settled hit race plus one pending race yield a
reported hit rate of 50%, not the 100% a settled-only denominator gives. -/
theorem C5_counterexample :
    ∃ out, analyze_prediction_history [c5H1, c5H2] c5Db = some out ∧
      out.stats.hitRate = 50 ∧
      (out.rows.filter (fun r =>
        r.hitDetail ≠ "結果未着" ∧ r.hitDetail ≠ "結果待/無")).length = 1 ∧
      ((out.rows.filter (fun r =>
        r.hitDetail ≠ "結果未着" ∧ r.hitDetail ≠ "結果待/無")).filter
          (fun r => r.isHit)).length = 1 ∧
      (50 : ℚ) ≠ (1 : ℚ) / (1 : ℚ) * 100 := by
  refine ⟨_, rfl, ?_, ?_, ?_, ?_⟩ <;> with_unfolding_all decide

/-- C10: a race whose stored result rows contain any L-class (girls keirin)
rider gets no entry in the result map, so every recommendation for it is
reported as awaiting results with zero investment, zero return, and no hit —
even when a complete finish order and payout table are stored. -/
theorem C10_girls_race_reported_pending (hist : List HEntry) (db : List ResultRow)
    (h : HEntry) (out : AnalyzeOut)
    (hsome : analyze_prediction_history hist db = some out)
    (hmem : h ∈ dedupHistory hist)
    (hL : (raceGroup db (entryRid h)).any (fun r => containsSub r.kyuhan "L") = true) :
    ∃ row ∈ out.rows, row.entry = h ∧ row.investment = 0 ∧ row.benefit = 0 ∧
      row.isHit = false ∧ row.hitDetail = "結果未着" := by
  obtain ⟨-, hrows, -, -, -⟩ := analyze_eq hist db out hsome
  have hinfo : raceInfo? (analyzeLoaded hist db) (entryRid h) = none := by
    by_cases ht : entryRid h ∈ targetRids hist
    · have hg := raceGroup_loaded_of_mem db (targetRids hist) (entryRid h) ht
      exact raceInfo?_girls_none _ _ (by rw [analyzeLoaded, hg]; exact hL)
    · have hg := raceGroup_loaded_of_not_mem db (targetRids hist) (entryRid h) ht
      exact raceInfo?_nil_none _ _ (by rw [analyzeLoaded]; exact hg)
  refine ⟨(settleEntry (raceInfo? (analyzeLoaded hist db)) h).row, ?_, ?_⟩
  · rw [hrows, analyzeOuts]
    simp only [List.map_map]
    exact List.mem_map_of_mem _ hmem
  · rw [settleEntry_none_row _ h hinfo]
    exact ⟨rfl, rfl, rfl, rfl, rfl⟩

/-- Witness for C10: an L-class race with complete results and a hitting
ticket is still reported pending. -/
theorem C10_witness :
    ∃ out, analyze_prediction_history [c10H] c10Db = some out ∧
      ∃ row ∈ out.rows, row.entry = c10H ∧ row.investment = 0 ∧ row.benefit = 0 ∧
        row.isHit = false ∧ row.hitDetail = "結果未着" :=
  ⟨_, rfl, C10_girls_race_reported_pending [c10H] c10Db c10H _ rfl
    (by decide) (by decide)⟩

set_option maxHeartbeats 16000000 in
set_option maxRecDepth 10000 in
/-- Scoring the C3 example race leaves every rider at their base rating, so the
scored frame handed to the classifier is exactly the literal frame
`c3InputLit`. -/
theorem c3_input_eval : toStrategyInput c3Race [] = c3InputLit := by
  with_unfolding_all decide

set_option maxHeartbeats 16000000 in
set_option maxRecDepth 10000 in
/-- Evaluating the classifier on the C3 scored frame: the race type produced is
`chaos`, not `standard`. -/
theorem c3_rtype_eval : outcomeType (generate_betting_strategy c3InputLit) = some "chaos" := by
  norm_num [generate_betting_strategy, c3InputLit, plainRow, defaultSpecs,
    sortRowsDesc, insertRowDesc, sortRowsBaseDesc, insertRowBaseDesc, sortNatAsc, insertNatAsc,
    sortNatDesc, insertNatDesc, lineCountsOf, classTierStrategy, optCarStr, joinCars, natStr,
    natDigits, digitCharOf, partnerInfoOf, starTypeOf, sujiModeOf, classifyOf, ticketsOf,
    assembleOf, filterIntNe, firstNatOf, parseCars, covered2tPairs, baseFlowFull, baseFlowDedup,
    addBase2T, List.eraseDups, pyTrim, pyReplace, pySplit, splitGo, containsSub, outcomeType]
  decide

set_option maxHeartbeats 16000000 in
set_option maxRecDepth 10000 in
/-- C1: the claim that the classifier returns normally on every frame with at
least three scored riders is false in the code.  On `c1Input` — three scored
riders whose AI hole car (2) differs from the score leader (1) — the `snipe`
branch is taken, which never assigns `confidence_level`, and the function
aborts with an `UnboundLocalError` when it later reads that variable. -/
theorem C1_snipe_branch_raises :
    3 ≤ c1Input.rows.length ∧
    generate_betting_strategy c1Input = .pyError "UnboundLocalError: confidence_level" := by
  refine ⟨by decide, ?_⟩
  norm_num [generate_betting_strategy, c1Input, plainRow, defaultSpecs,
    sortRowsDesc, insertRowDesc, sortRowsBaseDesc, insertRowBaseDesc, sortNatAsc, insertNatAsc,
    sortNatDesc, insertNatDesc, lineCountsOf, classTierStrategy, optCarStr, joinCars, natStr,
    natDigits, digitCharOf, partnerInfoOf, starTypeOf, sujiModeOf, classifyOf, ticketsOf,
    assembleOf, filterIntNe, firstNatOf, parseCars, covered2tPairs, baseFlowFull, baseFlowDedup,
    addBase2T, List.eraseDups, pyTrim, pyReplace, pySplit, splitGo, containsSub]
  decide

/-- C3 (amended): on the example race of seven riders with base ratings
[95, 90, 88, 85, 80, 78, 75] and no residency, tactic, line, or dominance
data, the scoring engine leaves every score equal to its base rating, but the
classifier then returns race type `chaos` — not `standard` as claimed: the
score-normalisation step rescales the leader's share of the total score above
the chaos threshold before the teppan/standard gap test is reached. -/
theorem C3_example_scores_unchanged_chaos :
    (toStrategyInput c3Race []).rows.map (fun r => r.score) =
      [95, 90, 88, 85, 80, 78, 75] ∧
    outcomeType (generate_betting_strategy (toStrategyInput c3Race [])) = some "chaos" := by
  rw [c3_input_eval]
  exact ⟨by with_unfolding_all decide, c3_rtype_eval⟩

/-- C3 counterexample: the classifier's race type on the example frame is not
`standard`. -/
theorem C3_counterexample :
    outcomeType (generate_betting_strategy (toStrategyInput c3Race [])) ≠ some "standard" := by
  rw [c3_input_eval, c3_rtype_eval]
  decide

end Keirin
